import Mathlib

/-
Verification of the post-authoring data pipeline of the django_with_mongodb
demonstration blog. The definitions below are a shallow embedding of the
Django models and signal handlers under src/apps (blog/models.py,
blog/signals.py, blog/views.py, blog/serializers.py, users/models.py):
database tables become lists of records, model save methods and signal
handlers become explicit state-passing functions on a database record, and
the nondeterministic random.choice draws made by the post_save signal are
passed in as explicit arguments. Timestamps are naturals (seconds); errors
are an explicit error type returned through Except.
-/

namespace DjangoBlog

/-- Model time as seconds since an epoch; timezone.now() is an explicit argument. -/
abbrev Time := Nat

/-- Error taxonomy of the spec: ValidationError, ConstraintViolation (Django
IntegrityError), NotFound, plus Python AttributeError for a failed attribute
lookup. -/
inductive DjErr where
  | validationError
  | constraintViolation
  | notFound
  | attributeError
deriving DecidableEq, Repr

/-! ## users/models.py -/

/-- User row (users/models.py 4-27): pk is None until the first save. -/
structure User where
  pk : Option Nat
  name : String
  email : String
  password : String
deriving DecidableEq, Repr

/-- User.save (users/models.py 14-21): `is_new = not self.pk`; the password is
run through make_password only when the row is new, then the row is persisted
(a new row gets a fresh pk). make_password is Django library code, passed in
as a function argument. -/
def User.save (make_password : String → String) (freshPk : Nat) (u : User) : User :=
  let is_new := u.pk.isNone
  let u := if is_new then { u with password := make_password u.password } else u
  if u.pk.isNone then { u with pk := some freshPk } else u

/-! ## Draft (blog/models.py 39-64) -/

/-- Draft row: scheduled_publish_at is nullable (null=True, blank=True). -/
structure Draft where
  pk : Option Nat
  authorId : Nat
  title : String
  content : String
  status : String
  scheduled_publish_at : Option Time
deriving DecidableEq, Repr

/-- 7 days, the timedelta(days=7) of blog/models.py 63, in seconds. -/
def sevenDays : Time := 7 * 24 * 60 * 60

/-- Draft.save (blog/models.py 61-64): `if not self.scheduled_publish_at` — a
None value (the only falsy value a nullable DateTimeField holds) is replaced
by now + 7 days before persisting; a new row gets a fresh pk. -/
def Draft.save (now : Time) (freshPk : Nat) (d : Draft) : Draft :=
  let d := if d.scheduled_publish_at.isNone
    then { d with scheduled_publish_at := some (now + sevenDays) } else d
  if d.pk.isNone then { d with pk := some freshPk } else d

/-- Draft.objects.create: build an unsaved row (status defaults to active,
blog/models.py 48) and run Draft.save on it. -/
def Draft.create (now : Time) (freshPk : Nat) (authorId : Nat)
    (title content : String) (sched : Option Time) : Draft :=
  Draft.save now freshPk
    { pk := none, authorId := authorId, title := title, content := content,
      status := "active", scheduled_publish_at := sched }

/-! ## Blog rows (blog/models.py) -/

/-- Post row (blog/models.py 66-86). The author FK is non-nullable. -/
structure Post where
  id : Nat
  title : String
  content : String
  authorId : Nat
  createdAt : Time
deriving DecidableEq, Repr

/-- PostVersion row (blog/models.py 88-112); created_by is SET_NULL hence
nullable, the post FK is not nullable. -/
structure PostVersion where
  id : Nat
  postId : Nat
  title : String
  content : String
  version_number : Nat
  createdBy : Option Nat
  createdAt : Time
deriving DecidableEq, Repr

/-- PostStatistics row (blog/models.py 115-130), 1:1 with Post. -/
structure PostStatistics where
  postId : Nat
  view_count : Nat
  like_count : Nat
  share_count : Nat
  avg_read_time : Option Nat
  last_viewed_at : Option Time
deriving DecidableEq, Repr

/-- PostSchedule row (blog/models.py 204-215). -/
structure PostSchedule where
  id : Nat
  postId : Nat
  scheduled_for : Time
  published_at : Option Time
  is_published : Bool
  retry_count : Nat
deriving DecidableEq, Repr

/-- Comment row (blog/models.py 152-168); author is SET_NULL, parent and
rating are nullable. -/
structure Comment where
  id : Nat
  postId : Nat
  authorId : Option Nat
  parentId : Option Nat
  content : String
  rating : Option Int
  is_approved : Bool
deriving DecidableEq, Repr

/-- Bookmark row (blog/models.py 171-180); the user field is an Author FK and
(user, post) is declared unique_together. -/
structure Bookmark where
  id : Nat
  userId : Nat
  postId : Nat
  notes : String
deriving DecidableEq, Repr

/-- Notification row (blog/models.py 183-202); content_object_id is a bare
integer with no type discriminator. -/
structure Notification where
  id : Nat
  recipientId : Nat
  notification_type : String
  content_object_id : Nat
  message : String
  is_read : Bool
deriving DecidableEq, Repr

/-- The relational store as the blog app sees it. Each list is a table in
insertion order; nextId is the shared id sequence feeding fresh primary
keys. -/
structure BlogDB where
  posts : List Post
  versions : List PostVersion
  stats : List PostStatistics
  schedules : List PostSchedule
  comments : List Comment
  bookmarks : List Bookmark
  notifications : List Notification
  nextId : Nat
deriving DecidableEq, Repr

/-- The empty store. -/
def emptyDB : BlogDB :=
  { posts := [], versions := [], stats := [], schedules := [], comments := [],
    bookmarks := [], notifications := [], nextId := 0 }

/-- Well-formedness: every row id and every foreign key is below the id
sequence, so a freshly allocated id is referenced by no existing row. -/
def BlogDB.wf (db : BlogDB) : Bool :=
  db.posts.all (fun p => p.id < db.nextId)
  && db.versions.all (fun v => v.id < db.nextId && v.postId < db.nextId)
  && db.stats.all (fun s => s.postId < db.nextId)
  && db.schedules.all (fun s => s.postId < db.nextId)
  && db.comments.all (fun c => c.postId < db.nextId)
  && db.bookmarks.all (fun b => b.postId < db.nextId)
  && db.notifications.all (fun n => n.content_object_id < db.nextId)

/-- instance.versions.all() for a post, in creation order (the table keeps
insertion order; versions of one post are its filter). -/
def postVersionsOf (db : BlogDB) (pid : Nat) : List PostVersion :=
  db.versions.filter (fun v => v.postId == pid)

/-- Post.objects.filter(id=pid).first(): the stored row for a post id. -/
def storedPost (db : BlogDB) (pid : Nat) : Option Post :=
  db.posts.find? (fun p => p.id == pid)

/-- The PostStatistics row paired with a post, if any. -/
def statsOf (db : BlogDB) (pid : Nat) : Option PostStatistics :=
  db.stats.find? (fun s => s.postId == pid)

/-- The values the post_save signal draws with random.choice (signals.py):
demoTitle from POST_TITLES, demoContent from POST_CONTENT, demoComment from
random_comments, demoNote from random_notes, demoKind and demoMessage from
notification_messages. They are inputs of the model because random.choice is
nondeterministic; each stands for one element of the corresponding fixed
tuple in signals.py. -/
structure SignalDraws where
  demoTitle : String
  demoContent : String
  demoComment : String
  demoNote : String
  demoKind : String
  demoMessage : String
deriving DecidableEq, Repr

/-- create_post_related_objects (blog/signals.py 74-184), run on post_save
with created=True. instTitle/instContent/instAuthor are the in-memory
instance fields — the title and content the caller passed to create, which
the queryset update below does NOT change (it only rewrites the stored row).
Steps, in source order:
1. Post.objects.filter(id=instance.id).update(title=random title, content=
   random content) — overwrite the stored row with the demo draws;
2. PostStatistics.objects.get_or_create with counters 0 and last_viewed_at
   = timezone.now();
3. PostVersion.objects.create(version 1) from the instance fields;
4. PostSchedule.objects.create(scheduled_for=now, is_published=False,
   retry_count=0);
5. Comment.objects.create(random content, author=instance.author,
   is_approved=True);
6. Bookmark.objects.create(user=instance.author, post=instance);
7. Notification.objects.create(recipient=instance.author,
   content_object_id=instance.id, is_read=False). -/
def create_post_related_objects (db : BlogDB) (now : Time) (draws : SignalDraws)
    (pid : Nat) (instTitle instContent : String) (instAuthor : Nat) : BlogDB :=
  let db1 := { db with posts := db.posts.map (fun (p : Post) =>
      if p.id == pid then { p with title := draws.demoTitle, content := draws.demoContent }
      else p) }
  let db2 : BlogDB := if db1.stats.any (fun s => s.postId == pid) then db1 else
    { db1 with stats := db1.stats ++
        [({ postId := pid, view_count := 0, like_count := 0, share_count := 0,
            avg_read_time := none, last_viewed_at := some now } : PostStatistics)] }
  let db3 := { db2 with
    versions := db2.versions ++
        [({ id := db2.nextId, postId := pid, title := instTitle, content := instContent,
            version_number := 1, createdBy := some instAuthor, createdAt := now } : PostVersion)],
    nextId := db2.nextId + 1 }
  let db4 := { db3 with
    schedules := db3.schedules ++
        [({ id := db3.nextId, postId := pid, scheduled_for := now, published_at := none,
            is_published := false, retry_count := 0 } : PostSchedule)],
    nextId := db3.nextId + 1 }
  let db5 := { db4 with
    comments := db4.comments ++
        [({ id := db4.nextId, postId := pid, authorId := some instAuthor, parentId := none,
            content := draws.demoComment, rating := none, is_approved := true } : Comment)],
    nextId := db4.nextId + 1 }
  let db6 := { db5 with
    bookmarks := db5.bookmarks ++
        [({ id := db5.nextId, userId := instAuthor, postId := pid, notes := draws.demoNote } : Bookmark)],
    nextId := db5.nextId + 1 }
  { db6 with
    notifications := db6.notifications ++
        [({ id := db6.nextId, recipientId := instAuthor, notification_type := draws.demoKind,
            content_object_id := pid, message := draws.demoMessage, is_read := false } : Notification)],
    nextId := db6.nextId + 1 }

/-- Post.objects.create(title, content, author): Post.save on an unsaved
instance (blog/models.py 77-80) skips the versioning branch because self.pk
is None, inserts the row, and then the post_save signal fires with
created=True. -/
def Post.create (db : BlogDB) (now : Time) (draws : SignalDraws)
    (title content : String) (authorId : Nat) : BlogDB :=
  let pid := db.nextId
  let db1 := { db with
    posts := db.posts ++
        [({ id := pid, title := title, content := content, authorId := authorId,
            createdAt := now } : Post)],
    nextId := db.nextId + 1 }
  create_post_related_objects db1 now draws pid title content authorId

/-- Post.save on an existing row (blog/models.py 77-80), i.e. an update with
new title/content: self.versions.update_or_create(version_number =
self.versions.count() + 1, defaults=new title/content/author) — if a version
with that number exists it is updated in place, otherwise a new row is
appended (its PostVersion.save keeps the given nonzero number) — and then
super().save() persists the changed fields. The post_save signal fires with
created=False and does nothing. -/
def Post.save (db : BlogDB) (now : Time) (pid : Nat)
    (newTitle newContent : String) : BlogDB :=
  match db.posts.find? (fun p => p.id == pid) with
  | none => db
  | some p =>
    let targetNum := (postVersionsOf db pid).length + 1
    let db1 : BlogDB :=
      if db.versions.any (fun v => v.postId == pid && v.version_number == targetNum) then
        { db with versions := db.versions.map (fun (v : PostVersion) =>
            if v.postId == pid && v.version_number == targetNum then
              { v with
                title := newTitle, content := newContent, createdBy := some p.authorId }
            else v) }
      else
        { db with
          versions := db.versions ++
              [({ id := db.nextId, postId := pid, title := newTitle, content := newContent,
                  version_number := targetNum, createdBy := some p.authorId,
                  createdAt := now } : PostVersion)],
          nextId := db.nextId + 1 }
    { db1 with posts := db1.posts.map (fun (q : Post) =>
        if q.id == pid then { q with title := newTitle, content := newContent } else q) }

/-- A sequence of sequential update calls on one post, each a Post.save with
new title and content. -/
def applyUpdates (db : BlogDB) (now : Time) (pid : Nat)
    (us : List (String × String)) : BlogDB :=
  us.foldl (fun d u => Post.save d now pid u.1 u.2) db

/-- Whether PostVersion.post is declared with null=True (blog/models.py 89:
it is not). -/
def postVersionPostNullable : Bool := false

/-- PostVersion.delete (blog/models.py 110-112): the body first evaluates
self.post.versions.remove(self). Django defines remove on a reverse
many-to-one related manager only when the foreign key is nullable; for the
non-nullable PostVersion.post the attribute lookup itself fails, so the
method raises AttributeError before super().delete() runs and no row is
removed. The nullable branch models the would-be behavior (unlink then
delete the row). -/
def PostVersion.delete (db : BlogDB) (vid : Nat) : Except DjErr BlogDB :=
  if postVersionPostNullable then
    .ok { db with versions := db.versions.filter (fun v => !(v.id == vid)) }
  else
    .error .attributeError

/-- Bookmark.objects.create against the unique_together [[user, post]]
constraint (blog/models.py 179): the storage layer rejects an insert whose
(user, post) pair an existing row already carries, raising the
IntegrityError the spec calls ConstraintViolation; otherwise the row is
appended. -/
def bookmarkInsert (table : List Bookmark) (fresh uid pid : Nat) (notes : String) :
    Except DjErr (List Bookmark) :=
  if table.any (fun b => b.userId == uid && b.postId == pid) then
    .error .constraintViolation
  else
    .ok (table ++ [{ id := fresh, userId := uid, postId := pid, notes := notes }])

/-- The declared domain of Comment.rating (blog/models.py 157):
choices=[(i, i) for i in range(1, 6)], i.e. the values 1..5. -/
def ratingChoices : List Int := [1, 2, 3, 4, 5]

/-- Django field validation for Comment.rating as declared (null=True,
choices 1..5): full_clean — run on every validated creation path, e.g. model
forms and the admin — accepts None because null=True, and otherwise requires
membership in the declared choices, raising ValidationError (code
invalid_choice) for any other value. -/
def comment_rating_validate (rating : Option Int) : Except DjErr Unit :=
  match rating with
  | none => .ok ()
  | some r => if ratingChoices.contains r then .ok () else .error .validationError

/-! ## Query/presentation layer (blog/views.py, blog/serializers.py) -/

/-- Stored users table row as read by the blog list views. -/
structure UserRow where
  id : Nat
  name : String
  email : String
deriving DecidableEq, Repr

/-- Stored authors table row (users/models.py 29-46): website, the
social_links JSON payload (kept serialized as a string), and the follower
counter. -/
structure AuthorRow where
  id : Nat
  userId : Nat
  website : String
  social_links : String
  follower_count : Nat
deriving DecidableEq, Repr

/-- The tables the three blog list views read. -/
structure QueryDB where
  users : List UserRow
  authors : List AuthorRow
  posts : List Post
  versions : List PostVersion
deriving DecidableEq, Repr

/-- A JSON value as produced by the serializers: number, string, null, the
nested author_details object of AuthorUserSerializer, or the author_info
object built by PostSerializer.get_author_info. -/
inductive JVal where
  | num : Nat → JVal
  | str : String → JVal
  | null : JVal
  | userObj : Nat → String → String → JVal
  | infoObj : Nat → String → String → Nat → JVal
deriving DecidableEq, Repr

/-- One serialized row: field names paired with values, in serializer field
order. -/
abbrev Row := List (String × JVal)

/-- The join and filter all three list views share: INNER JOIN authors ON
p.author_id = a.id, INNER JOIN users ON a.user_id = u.id, WHERE u.email =
email — identically, the ORM filter author__user__email=email walked over
the non-nullable author and user foreign keys. -/
def postsByEmail (db : QueryDB) (email : String) :
    List (Post × AuthorRow × UserRow) :=
  db.posts.filterMap (fun p =>
    (db.authors.find? (fun a => a.id == p.authorId)).bind (fun a =>
      (db.users.find? (fun u => u.id == a.userId)).bind (fun u =>
        if u.email == email then some (p, a, u) else none)))

/-- Insertion step for the ORDER BY created_at DESC sort. -/
def insertDesc (x : Post × AuthorRow × UserRow) :
    List (Post × AuthorRow × UserRow) → List (Post × AuthorRow × UserRow)
  | [] => [x]
  | y :: l => if y.1.createdAt ≤ x.1.createdAt then x :: y :: l else y :: insertDesc x l

/-- ORDER BY p.created_at DESC (equally .order_by('-created_at')), identical
in all three views. -/
def sortByCreatedAtDesc :
    List (Post × AuthorRow × UserRow) → List (Post × AuthorRow × UserRow)
  | [] => []
  | x :: l => insertDesc x (sortByCreatedAtDesc l)

/-- PostRawSerializer applied to one row of the raw SQL result
(blog/views.py 33-56, blog/serializers.py 44-53). The raw query left-joins
post_versions ON p.id = pv.id — the version row whose own primary key equals
the post id, not a join on pv.post_id — so version_title is that row's
title, or null when no version row carries that primary key. -/
def rawRow (db : QueryDB) (x : Post × AuthorRow × UserRow) : Row :=
  [("id", .num x.1.id), ("title", .str x.1.title),
   ("version_title",
     match db.versions.find? (fun v => v.id == x.1.id) with
     | some v => .str v.title
     | none => .null),
   ("email", .str x.2.2.email), ("name", .str x.2.2.name),
   ("website", .str x.2.1.website), ("social_links", .str x.2.1.social_links)]

/-- PostORMSerializer applied to a Post instance (blog/views.py 59-71,
blog/serializers.py 55-64): id and title come from the post; version_title
is declared CharField(allow_null=True) with no source, and a Post instance
has no version_title attribute, so the serializer field's attribute lookup
falls into its allow_null branch and the field serializes as null on every
row (the prefetched versions queryset is never consulted); the remaining
fields follow their declared author.user / author sources. -/
def ormRow (x : Post × AuthorRow × UserRow) : Row :=
  [("id", .num x.1.id), ("title", .str x.1.title), ("version_title", .null),
   ("email", .str x.2.2.email), ("name", .str x.2.2.name),
   ("website", .str x.2.1.website), ("social_links", .str x.2.1.social_links)]

/-- PostSerializer applied to a Post instance (blog/views.py 74-83,
blog/serializers.py 5-42): fields id, title, created_at, the nested
author_details object, the flattened author_name and author_email, and the
author_info method object. It has no version, website or social_links
field. -/
def selectRelatedRow (x : Post × AuthorRow × UserRow) : Row :=
  [("id", .num x.1.id), ("title", .str x.1.title), ("created_at", .num x.1.createdAt),
   ("author_details", .userObj x.2.2.id x.2.2.name x.2.2.email),
   ("author_name", .str x.2.2.name), ("author_email", .str x.2.2.email),
   ("author_info", .infoObj x.2.2.id x.2.2.name x.2.2.email x.2.1.follower_count)]

/-- blog_list_raw (views.py 33-56). The source fixes the email to the
constant john.doe@gmail.com; it is kept as an argument here, with every view
receiving the same one. -/
def blog_list_raw (db : QueryDB) (email : String) : List Row :=
  (sortByCreatedAtDesc (postsByEmail db email)).map (rawRow db)

/-- blog_list_orm (views.py 59-71). -/
def blog_list_orm (db : QueryDB) (email : String) : List Row :=
  (sortByCreatedAtDesc (postsByEmail db email)).map ormRow

/-- blog_list_select_related (views.py 74-83). -/
def blog_list_select_related (db : QueryDB) (email : String) : List Row :=
  (sortByCreatedAtDesc (postsByEmail db email)).map selectRelatedRow

/-- Lookup of a field in a serialized row. -/
def rowField (r : Row) (k : String) : Option JVal :=
  (r.find? (fun kv => kv.1 == k)).map (fun kv => kv.2)

/-- A one-post store on which the three strategies disagree: the post has a
version whose primary key equals the post id, so the raw query reports the
version title while the ORM strategy reports null for version_title and the
select-related strategy emits a different row shape altogether. -/
def queryCounterexampleDB : QueryDB :=
  { users := [{ id := 1, name := "John Doe", email := "john.doe@gmail.com" }],
    authors := [{ id := 2, userId := 1, website := "", social_links := "",
                  follower_count := 0 }],
    posts := [{ id := 3, title := "P", content := "C", authorId := 2, createdAt := 10 }],
    versions := [{ id := 3, postId := 3, title := "V", content := "CV",
                   version_number := 1, createdBy := some 2, createdAt := 10 }] }

/-! ## Helper lemmas -/

/-- find? skips an appended prefix in which nothing matches. -/
lemma find?_append_right {α : Type} (l r : List α) (q : α → Bool)
    (h : ∀ x ∈ l, q x = false) : (l ++ r).find? q = r.find? q := by
  rw [List.find?_append, List.find?_eq_none.mpr]
  · rfl
  · intro x hx
    simp [h x hx]

/-- filter of a list in which nothing matches is empty. -/
lemma filter_of_none {α : Type} (l : List α) (q : α → Bool)
    (h : ∀ x ∈ l, q x = false) : l.filter q = [] := by
  apply List.filter_eq_nil_iff.mpr
  intro x hx
  simp [h x hx]

/-- map with a function that fixes every element of the list is the identity. -/
lemma map_of_fix {α : Type} (l : List α) (f : α → α)
    (h : ∀ x ∈ l, f x = x) : l.map f = l := by
  rw [List.map_congr_left h]
  exact List.map_id' l

/-- Unpacking well-formedness: no stored row references the fresh id. -/
lemma wf_no_fresh {db : BlogDB} (h : db.wf = true) :
    (∀ p ∈ db.posts, (p.id == db.nextId) = false)
    ∧ (∀ v ∈ db.versions, (v.postId == db.nextId) = false)
    ∧ (∀ s ∈ db.stats, (s.postId == db.nextId) = false)
    ∧ (∀ s ∈ db.schedules, (s.postId == db.nextId) = false)
    ∧ (∀ cm ∈ db.comments, (cm.postId == db.nextId) = false)
    ∧ (∀ b ∈ db.bookmarks, (b.postId == db.nextId) = false)
    ∧ (∀ n ∈ db.notifications, (n.content_object_id == db.nextId) = false) := by
  simp only [BlogDB.wf, Bool.and_eq_true, List.all_eq_true, decide_eq_true_eq,
    Bool.and_eq_true] at h
  obtain ⟨⟨⟨⟨⟨⟨h1, h2⟩, h3⟩, h4⟩, h5⟩, h6⟩, h7⟩ := h
  refine ⟨fun p hp => ?_, fun v hv => ?_, fun s hs => ?_, fun s hs => ?_,
    fun cm hcm => ?_, fun b hb => ?_, fun n hn => ?_⟩
  · simp [Nat.ne_of_lt (h1 p hp)]
  · have := h2 v hv
    simp only [decide_eq_true_eq] at this
    simp [Nat.ne_of_lt this.2]
  · simp [Nat.ne_of_lt (h3 s hs)]
  · simp [Nat.ne_of_lt (h4 s hs)]
  · simp [Nat.ne_of_lt (h5 cm hcm)]
  · simp [Nat.ne_of_lt (h6 b hb)]
  · simp [Nat.ne_of_lt (h7 n hn)]

/-- The complete effect of Post.objects.create on every table, at the fresh
post id, over any well-formed store: the stored Post row ends up with the
demo draws, while version 1, the statistics row, the schedule and the three
engagement rows are as the signal writes them. -/
lemma create_effect (db : BlogDB) (now : Time) (draws : SignalDraws)
    (t c : String) (a : Nat) (h : db.wf = true) :
    storedPost (Post.create db now draws t c a) db.nextId
        = some { id := db.nextId, title := draws.demoTitle, content := draws.demoContent,
                 authorId := a, createdAt := now }
    ∧ postVersionsOf (Post.create db now draws t c a) db.nextId
        = [{ id := db.nextId + 1, postId := db.nextId, title := t, content := c,
             version_number := 1, createdBy := some a, createdAt := now }]
    ∧ statsOf (Post.create db now draws t c a) db.nextId
        = some { postId := db.nextId, view_count := 0, like_count := 0, share_count := 0,
                 avg_read_time := none, last_viewed_at := some now }
    ∧ (Post.create db now draws t c a).schedules.filter (fun s => s.postId == db.nextId)
        = [{ id := db.nextId + 2, postId := db.nextId, scheduled_for := now,
             published_at := none, is_published := false, retry_count := 0 }]
    ∧ (Post.create db now draws t c a).comments.filter (fun cm => cm.postId == db.nextId)
        = [{ id := db.nextId + 3, postId := db.nextId, authorId := some a, parentId := none,
             content := draws.demoComment, rating := none, is_approved := true }]
    ∧ (Post.create db now draws t c a).bookmarks.filter (fun b => b.postId == db.nextId)
        = [{ id := db.nextId + 4, userId := a, postId := db.nextId,
             notes := draws.demoNote }]
    ∧ (Post.create db now draws t c a).notifications.filter
          (fun n => n.content_object_id == db.nextId)
        = [{ id := db.nextId + 5, recipientId := a, notification_type := draws.demoKind,
             content_object_id := db.nextId, message := draws.demoMessage,
             is_read := false }] := by
  obtain ⟨hp, hv, hs, hsc, hcm, hb, hn⟩ := wf_no_fresh h
  have hany : db.stats.any (fun s => s.postId == db.nextId) = false :=
    List.any_eq_false.mpr (fun x hx => by simp [hs x hx])
  simp only [Post.create, create_post_related_objects, storedPost, postVersionsOf, statsOf]
  simp only [List.map_append, List.map_cons, List.map_nil, hany, Bool.false_eq_true,
    if_false, beq_self_eq_true, if_true, List.filter_append]
  rw [map_of_fix db.posts _ (fun p hmem => by simp [hp p hmem])]
  rw [find?_append_right db.posts _ _ hp,
      find?_append_right db.stats _ _ hs,
      filter_of_none db.versions _ hv,
      filter_of_none db.schedules _ hsc,
      filter_of_none db.comments _ hcm,
      filter_of_none db.bookmarks _ hb,
      filter_of_none db.notifications _ hn]
  simp [List.find?]

/-- The posts-table rewrite performed by super().save() keeps the id and the
author of every row, so looking up the saved post still yields its author. -/
lemma find?_posts_after_rewrite (l : List Post) (pid : Nat) (t c : String) :
    ((l.map (fun (q : Post) =>
        if q.id == pid then { q with title := t, content := c } else q)).find?
          (fun p => p.id == pid)).map (fun p => p.authorId)
      = (l.find? (fun p => p.id == pid)).map (fun p => p.authorId) := by
  induction l with
  | nil => rfl
  | cons q l ih =>
    by_cases hq : (q.id == pid) = true
    · simp [List.find?, hq]
    · have hq' : (q.id == pid) = false := by simpa using hq
      simpa [List.find?, hq'] using ih

/-- One Post.save on an existing post whose versions are numbered 1..k:
update_or_create finds no version numbered k+1, so it appends a fresh row
numbered k+1 carrying the new title/content and the post author, and the
post lookup still yields the same author afterwards. -/
lemma save_versions_step (db : BlogDB) (now : Time) (pid : Nat) (t' c' : String)
    (a k : Nat)
    (hpost : (db.posts.find? (fun p => p.id == pid)).map (fun p => p.authorId) = some a)
    (hnum : (postVersionsOf db pid).map (fun v => v.version_number) = List.range' 1 k) :
    postVersionsOf (Post.save db now pid t' c') pid
      = postVersionsOf db pid
        ++ [{ id := db.nextId, postId := pid, title := t', content := c',
              version_number := k + 1, createdBy := some a, createdAt := now }]
    ∧ ((Post.save db now pid t' c').posts.find? (fun p => p.id == pid)).map
        (fun p => p.authorId) = some a := by
  obtain ⟨p, hp, hpa⟩ : ∃ p, db.posts.find? (fun p => p.id == pid) = some p
      ∧ p.authorId = a := by
    cases hfind : db.posts.find? (fun p => p.id == pid) with
    | none => rw [hfind] at hpost; cases hpost
    | some p => rw [hfind] at hpost; exact ⟨p, rfl, by simpa using hpost⟩
  have hcount : (postVersionsOf db pid).length = k := by
    have := congrArg List.length hnum
    simpa using this
  have hany : db.versions.any
      (fun v => v.postId == pid && v.version_number == (postVersionsOf db pid).length + 1)
      = false := by
    rw [hcount]
    apply List.any_eq_false.mpr
    intro v hv hcontra
    rw [Bool.and_eq_true] at hcontra
    obtain ⟨hvp, hvn⟩ := hcontra
    have hvmem : v ∈ postVersionsOf db pid := List.mem_filter.mpr ⟨hv, hvp⟩
    have hmem : v.version_number ∈ List.range' 1 k :=
      hnum ▸ List.mem_map_of_mem (fun v => v.version_number) hvmem
    rw [List.mem_range'] at hmem
    rw [beq_iff_eq] at hvn
    omega
  have hcount' : (List.filter (fun v => v.postId == pid) db.versions).length = k := by
    simpa [postVersionsOf] using hcount
  constructor
  · simp only [Post.save, hp]
    rw [hany]
    simp [postVersionsOf, List.filter_append, hcount', hpa]
  · simp only [Post.save, hp]
    rw [hany]
    simp only [Bool.false_eq_true, if_false]
    rw [find?_posts_after_rewrite]
    exact hpost

/-- Folding a list of sequential updates over a post whose versions realize a
prefix history vs extends the history to vs ++ us, with version numbers
1, 2, ..., all attributed to the post author. -/
lemma applyUpdates_inv (us : List (String × String)) :
    ∀ (db : BlogDB) (now : Time) (pid a : Nat) (vs : List (String × String)),
    (db.posts.find? (fun p => p.id == pid)).map (fun p => p.authorId) = some a →
    (postVersionsOf db pid).map (fun v => v.version_number) = List.range' 1 vs.length →
    (postVersionsOf db pid).map (fun v => (v.title, v.content)) = vs →
    (postVersionsOf db pid).map (fun v => v.createdBy)
        = List.replicate vs.length (some a) →
    (postVersionsOf (applyUpdates db now pid us) pid).map (fun v => v.version_number)
        = List.range' 1 (vs ++ us).length
    ∧ (postVersionsOf (applyUpdates db now pid us) pid).map (fun v => (v.title, v.content))
        = vs ++ us
    ∧ (postVersionsOf (applyUpdates db now pid us) pid).map (fun v => v.createdBy)
        = List.replicate (vs ++ us).length (some a) := by
  induction us with
  | nil =>
    intro db now pid a vs h1 h2 h3 h4
    simpa [applyUpdates] using ⟨h2, h3, h4⟩
  | cons u us ih =>
    intro db now pid a vs h1 h2 h3 h4
    obtain ⟨hstep, hfind⟩ := save_versions_step db now pid u.1 u.2 a vs.length h1 h2
    have hfold : applyUpdates db now pid (u :: us)
        = applyUpdates (Post.save db now pid u.1 u.2) now pid us := rfl
    have h2' : (postVersionsOf (Post.save db now pid u.1 u.2) pid).map
        (fun v => v.version_number) = List.range' 1 (vs ++ [u]).length := by
      rw [hstep, List.map_append, h2]
      have := @List.range'_concat 1 1 vs.length
      simp only [Nat.one_mul] at this
      simp [this, Nat.add_comm]
    have h3' : (postVersionsOf (Post.save db now pid u.1 u.2) pid).map
        (fun v => (v.title, v.content)) = vs ++ [u] := by
      rw [hstep, List.map_append, h3]
      simp
    have h4' : (postVersionsOf (Post.save db now pid u.1 u.2) pid).map
        (fun v => v.createdBy) = List.replicate (vs ++ [u]).length (some a) := by
      rw [hstep, List.map_append, h4]
      simp [List.replicate_succ' vs.length (some a)]
    have hres := ih (Post.save db now pid u.1 u.2) now pid a (vs ++ [u]) hfind h2' h3' h4'
    rw [hfold]
    simpa [List.append_assoc] using hres

/-! ## Claim theorems (first part) -/

/-- C7: a Draft created without a scheduled_publish_at value stores creation
time + 7 days (exactly, in this discrete-time model, hence within 1 second);
a Draft created with an explicit value keeps that exact value; and a later
save of a draft whose field is already set does not recompute the default. -/
theorem draft_default_scheduling (now later fresh fresh2 aid : Nat)
    (t c : String) (v : Time) :
    (Draft.create now fresh aid t c none).scheduled_publish_at
        = some (now + sevenDays)
    ∧ (Draft.create now fresh aid t c (some v)).scheduled_publish_at = some v
    ∧ (Draft.save later fresh2 (Draft.create now fresh aid t c none)).scheduled_publish_at
        = some (now + sevenDays)
    ∧ (Draft.save later fresh2 (Draft.create now fresh aid t c (some v))).scheduled_publish_at
        = some v := by
  refine ⟨rfl, rfl, rfl, rfl⟩

/-- C10: the password is hashed exactly once, at the first save (pk = None);
saving an existing row (pk set) stores the password field exactly as given,
with no re-hashing. -/
theorem user_password_hashed_once (make_password : String → String)
    (fresh fresh2 : Nat) (nm em pw : String) (u : User)
    (h : u.pk.isSome = true) :
    (User.save make_password fresh
        { pk := none, name := nm, email := em, password := pw }).password
      = make_password pw
    ∧ (User.save make_password fresh2 u).password = u.password := by
  constructor
  · rfl
  · obtain ⟨k, hk⟩ := Option.isSome_iff_exists.mp h
    simp [User.save, hk]

/-- A concrete possible outcome of the signal draws: demoTitle is the first
element of POST_TITLES (blog/signals.py 18) verbatim; the remaining fields
are arbitrary stand-in strings, since no claim depends on their exact
values. -/
def demoDraws : SignalDraws :=
  { demoTitle := "Getting Started with Django ORM: A Comprehensive Guide",
    demoContent := "Django ORM guide body text",
    demoComment := "Great article! This really helped me understand the topic better.",
    demoNote := "Save this for later reference - great resource!",
    demoKind := "New Comment",
    demoMessage := "New Comment" }

/-- C1 as stated is false: at a concrete create call (title T, content C) the
version-1 row and the stored Post row disagree on title and content, because
the signal overwrites the stored row with the demo draw while version 1
keeps the caller-supplied values. -/
theorem create_consistency_counterexample :
    ¬ (((postVersionsOf (Post.create emptyDB 0 demoDraws "T" "C" 1) 0).map
          (fun v => (v.title, v.content))).head?
        = (storedPost (Post.create emptyDB 0 demoDraws "T" "C" 1) 0).map
            (fun p => (p.title, p.content))) := by
  decide

/-- C1 amended: after create(title, content, author) the Post row, exactly
one version (with version_number = 1), the statistics row and the schedule
row all exist; version 1 carries the title/content passed to create and
created_by equals the author; the stored Post row, however, carries the
title/content drawn from the demo tuples by the signal, so it agrees with
version 1 only when the draw coincides with the caller values. -/
theorem create_related_rows (db : BlogDB) (now : Time) (draws : SignalDraws)
    (t c : String) (a : Nat) (h : db.wf = true) :
    (postVersionsOf (Post.create db now draws t c a) db.nextId).map
        (fun v => (v.version_number, v.title, v.content, v.createdBy))
      = [(1, t, c, some a)]
    ∧ (storedPost (Post.create db now draws t c a) db.nextId).map
        (fun p => (p.title, p.content, p.authorId))
      = some (draws.demoTitle, draws.demoContent, a)
    ∧ (statsOf (Post.create db now draws t c a) db.nextId).isSome = true
    ∧ ((Post.create db now draws t c a).schedules.filter
        (fun s => s.postId == db.nextId)).length = 1 := by
  obtain ⟨h1, h2, h3, h4, -, -, -⟩ := create_effect db now draws t c a h
  refine ⟨?_, ?_, ?_, ?_⟩
  · rw [h2]; rfl
  · rw [h1]; rfl
  · rw [h3]; rfl
  · rw [h4]; rfl

/-- Concrete check of create_related_rows on the empty store. -/
theorem create_related_rows_witness :
    (emptyDB.wf = true)
    ∧ ((postVersionsOf (Post.create emptyDB 7 demoDraws "T" "C" 1) emptyDB.nextId).map
          (fun v => (v.version_number, v.title, v.content, v.createdBy))
        = [(1, "T", "C", some 1)]
      ∧ (storedPost (Post.create emptyDB 7 demoDraws "T" "C" 1) emptyDB.nextId).map
          (fun p => (p.title, p.content, p.authorId))
        = some (demoDraws.demoTitle, demoDraws.demoContent, 1)
      ∧ (statsOf (Post.create emptyDB 7 demoDraws "T" "C" 1) emptyDB.nextId).isSome = true
      ∧ ((Post.create emptyDB 7 demoDraws "T" "C" 1).schedules.filter
          (fun s => s.postId == emptyDB.nextId)).length = 1) :=
  ⟨by decide, create_related_rows emptyDB 7 demoDraws "T" "C" 1 (by decide)⟩

/-- C3 as stated is false at a concrete create call: the paired statistics
row stores a last-viewed timestamp (the creation time), not null, because
the signal passes last_viewed_at=timezone.now() in the get_or_create
defaults. -/
theorem statistics_null_counterexample :
    ¬ ((statsOf (Post.create emptyDB 0 demoDraws "T" "C" 1) 0).map
          (fun s => s.last_viewed_at)
        = some none) := by
  decide

/-- C3 amended: after create, the paired PostStatistics row has view_count =
0, like_count = 0, share_count = 0, and last_viewed_at equal to the creation
time (not null). -/
theorem statistics_initialization (db : BlogDB) (now : Time) (draws : SignalDraws)
    (t c : String) (a : Nat) (h : db.wf = true) :
    statsOf (Post.create db now draws t c a) db.nextId
      = some { postId := db.nextId, view_count := 0, like_count := 0, share_count := 0,
               avg_read_time := none, last_viewed_at := some now } :=
  (create_effect db now draws t c a h).2.2.1

/-- Concrete check of statistics_initialization on the empty store. -/
theorem statistics_initialization_witness :
    (emptyDB.wf = true)
    ∧ statsOf (Post.create emptyDB 9 demoDraws "T" "C" 1) emptyDB.nextId
        = some { postId := emptyDB.nextId, view_count := 0, like_count := 0,
                 share_count := 0, avg_read_time := none, last_viewed_at := some 9 } :=
  ⟨by decide, statistics_initialization emptyDB 9 demoDraws "T" "C" 1 (by decide)⟩

/-- C9: creating a Post also creates one approved Comment on it authored by
the post author, one Bookmark for (post.author, post), and one unread
Notification addressed to the post author, and overwrites the stored Post
title/content with the values drawn from the demo tuples instead of the
caller-supplied ones. -/
theorem create_demo_side_objects (db : BlogDB) (now : Time) (draws : SignalDraws)
    (t c : String) (a : Nat) (h : db.wf = true) :
    ((Post.create db now draws t c a).comments.filter
        (fun cm => cm.postId == db.nextId)).map
        (fun cm => (cm.authorId, cm.is_approved, cm.content))
      = [(some a, true, draws.demoComment)]
    ∧ ((Post.create db now draws t c a).bookmarks.filter
        (fun b => b.postId == db.nextId)).map (fun b => (b.userId, b.postId))
      = [(a, db.nextId)]
    ∧ ((Post.create db now draws t c a).notifications.filter
        (fun n => n.content_object_id == db.nextId)).map
        (fun n => (n.recipientId, n.is_read, n.message))
      = [(a, false, draws.demoMessage)]
    ∧ (storedPost (Post.create db now draws t c a) db.nextId).map
        (fun p => (p.title, p.content))
      = some (draws.demoTitle, draws.demoContent) := by
  obtain ⟨h1, -, -, -, h5, h6, h7⟩ := create_effect db now draws t c a h
  refine ⟨?_, ?_, ?_, ?_⟩
  · rw [h5]; rfl
  · rw [h6]; rfl
  · rw [h7]; rfl
  · rw [h1]; rfl

/-- Concrete check of create_demo_side_objects on the empty store. -/
theorem create_demo_side_objects_witness :
    (emptyDB.wf = true)
    ∧ (((Post.create emptyDB 3 demoDraws "T" "C" 2).comments.filter
          (fun cm => cm.postId == emptyDB.nextId)).map
          (fun cm => (cm.authorId, cm.is_approved, cm.content))
        = [(some 2, true, demoDraws.demoComment)]
      ∧ ((Post.create emptyDB 3 demoDraws "T" "C" 2).bookmarks.filter
          (fun b => b.postId == emptyDB.nextId)).map (fun b => (b.userId, b.postId))
        = [(2, emptyDB.nextId)]
      ∧ ((Post.create emptyDB 3 demoDraws "T" "C" 2).notifications.filter
          (fun n => n.content_object_id == emptyDB.nextId)).map
          (fun n => (n.recipientId, n.is_read, n.message))
        = [(2, false, demoDraws.demoMessage)]
      ∧ (storedPost (Post.create emptyDB 3 demoDraws "T" "C" 2) emptyDB.nextId).map
          (fun p => (p.title, p.content))
        = some (demoDraws.demoTitle, demoDraws.demoContent)) :=
  ⟨by decide, create_demo_side_objects emptyDB 3 demoDraws "T" "C" 2 (by decide)⟩

/-- C2: starting from create(t, c, a) and applying any list of sequential
updates, the versions of that post, read in creation order, are numbered
1, 2, ..., n+1 with no duplicates and no gaps (each new number is the count
of existing versions plus one), capture the history of titles/contents
((t, c) followed by each update, the new values), and are all attributed to
the post author. -/
theorem version_monotonicity (db : BlogDB) (now : Time) (draws : SignalDraws)
    (t c : String) (a : Nat) (us : List (String × String)) (h : db.wf = true) :
    (postVersionsOf (applyUpdates (Post.create db now draws t c a) now db.nextId us)
        db.nextId).map (fun v => v.version_number)
      = List.range' 1 (us.length + 1)
    ∧ (postVersionsOf (applyUpdates (Post.create db now draws t c a) now db.nextId us)
        db.nextId).map (fun v => (v.title, v.content))
      = (t, c) :: us
    ∧ (postVersionsOf (applyUpdates (Post.create db now draws t c a) now db.nextId us)
        db.nextId).map (fun v => v.createdBy)
      = List.replicate (us.length + 1) (some a) := by
  obtain ⟨h1, h2, -, -, -, -, -⟩ := create_effect db now draws t c a h
  have hfind : ((Post.create db now draws t c a).posts.find?
      (fun p => p.id == db.nextId)).map (fun p => p.authorId) = some a := by
    rw [storedPost] at h1
    rw [h1]
    rfl
  have hres := applyUpdates_inv us (Post.create db now draws t c a) now db.nextId a
    [(t, c)] hfind (by rw [h2]; rfl) (by rw [h2]; rfl) (by rw [h2]; rfl)
  simpa using hres

/-- Concrete check of version_monotonicity on the empty store with two
updates. -/
theorem version_monotonicity_witness :
    (emptyDB.wf = true)
    ∧ ((postVersionsOf (applyUpdates (Post.create emptyDB 4 demoDraws "T" "C" 1) 4
            emptyDB.nextId [("T2", "C2"), ("T3", "C3")]) emptyDB.nextId).map
          (fun v => v.version_number)
        = List.range' 1 ([("T2", "C2"), ("T3", "C3")].length + 1)
      ∧ (postVersionsOf (applyUpdates (Post.create emptyDB 4 demoDraws "T" "C" 1) 4
            emptyDB.nextId [("T2", "C2"), ("T3", "C3")]) emptyDB.nextId).map
          (fun v => (v.title, v.content))
        = ("T", "C") :: [("T2", "C2"), ("T3", "C3")]
      ∧ (postVersionsOf (applyUpdates (Post.create emptyDB 4 demoDraws "T" "C" 1) 4
            emptyDB.nextId [("T2", "C2"), ("T3", "C3")]) emptyDB.nextId).map
          (fun v => v.createdBy)
        = List.replicate ([("T2", "C2"), ("T3", "C3")].length + 1) (some 1)) :=
  ⟨by decide,
   version_monotonicity emptyDB 4 demoDraws "T" "C" 1 [("T2", "C2"), ("T3", "C3")]
     (by decide)⟩

/-- C5: inserting a Bookmark for a (user, post) pair not yet present succeeds
and appends the row; inserting the same pair again then fails with
ConstraintViolation, whatever the fresh id and notes of the second attempt. -/
theorem bookmark_unique_pair (table : List Bookmark) (fresh fresh2 uid pid : Nat)
    (notes notes2 : String)
    (h : table.any (fun b => b.userId == uid && b.postId == pid) = false) :
    bookmarkInsert table fresh uid pid notes
        = .ok (table ++ [{ id := fresh, userId := uid, postId := pid, notes := notes }])
    ∧ bookmarkInsert
          (table ++ [{ id := fresh, userId := uid, postId := pid, notes := notes }])
          fresh2 uid pid notes2
        = .error .constraintViolation := by
  constructor
  · simp [bookmarkInsert, h]
  · simp [bookmarkInsert, List.any_append]

/-- Concrete check of bookmark_unique_pair on the empty table. -/
theorem bookmark_unique_pair_witness :
    (([] : List Bookmark).any (fun b => b.userId == 1 && b.postId == 2) = false)
    ∧ (bookmarkInsert [] 10 1 2 "n"
          = .ok ([] ++ [{ id := 10, userId := 1, postId := 2, notes := "n" }])
      ∧ bookmarkInsert ([] ++ [{ id := 10, userId := 1, postId := 2, notes := "n" }])
            11 1 2 "m"
          = .error .constraintViolation) :=
  ⟨by decide, bookmark_unique_pair [] 10 11 1 2 "n" "m" (by decide)⟩

/-- C6 concerns a bug: PostVersion.delete never reaches super().delete() —
its first statement self.post.versions.remove(self) raises AttributeError,
because Django only defines remove on a reverse many-to-one manager whose
foreign key is nullable and PostVersion.post is not. So no call ever removes
a version: the operation fails on every store and every version id. -/
theorem postVersion_delete_raises (db : BlogDB) (vid : Nat) :
    PostVersion.delete db vid = .error .attributeError := by
  rfl

/-- C8: creating a Comment through a validated path with a rating outside the
declared domain 1..5 fails with ValidationError. -/
theorem comment_rating_out_of_domain (r : Int) (h : r < 1 ∨ 5 < r) :
    comment_rating_validate (some r) = .error .validationError := by
  have hmem : r ∉ ratingChoices := by
    intro hmem
    have hcases : r = 1 ∨ r = 2 ∨ r = 3 ∨ r = 4 ∨ r = 5 := by
      simpa [ratingChoices] using hmem
    rcases h with h | h <;>
      rcases hcases with rfl | rfl | rfl | rfl | rfl <;> omega
  have hc : ratingChoices.contains r = false := by
    simpa using hmem
  simp [comment_rating_validate, hc, hmem]

/-- Concrete check of comment_rating_out_of_domain at rating 10. -/
theorem comment_rating_out_of_domain_witness :
    ((10 : Int) < 1 ∨ 5 < (10 : Int))
    ∧ comment_rating_validate (some 10) = .error .validationError :=
  ⟨by decide, comment_rating_out_of_domain 10 (by decide)⟩

/-- Concrete check of user_password_hashed_once, at a concrete hash function
and a concrete already-saved user. -/
theorem user_password_hashed_once_witness :
    ((some 5 : Option Nat).isSome = true)
    ∧ ((User.save (fun s => String.append "hashed:" s) 1
          { pk := none, name := "n", email := "e", password := "pw" }).password
        = String.append "hashed:" "pw"
      ∧ (User.save (fun s => String.append "hashed:" s) 2
          { pk := some 5, name := "n", email := "e", password := "plain2" }).password
        = "plain2") :=
  ⟨by decide,
   user_password_hashed_once (fun s => String.append "hashed:" s) 1 2 "n" "e" "pw"
     { pk := some 5, name := "n", email := "e", password := "plain2" } (by decide)⟩

/-- C4 as stated is false: on a concrete store the three query strategies do
not return the same rows — the raw strategy reports a version title where
the ORM strategy reports null, and the select-related strategy produces a
different field set. -/
theorem query_strategies_counterexample :
    ¬ (blog_list_raw queryCounterexampleDB "john.doe@gmail.com"
          = blog_list_orm queryCounterexampleDB "john.doe@gmail.com"
      ∧ blog_list_orm queryCounterexampleDB "john.doe@gmail.com"
          = blog_list_select_related queryCounterexampleDB "john.doe@gmail.com") := by
  decide

/-- C4 amended: the three strategies apply the same filter (posts of the
given author email) and the same created_at-descending order, so they agree
on the sequence of (id, title) per row; the raw and ORM strategies agree on
every field except version_title; but the ORM strategy's version_title is
null on every row (where the raw strategy reads the version row whose
primary key equals the post id), and the select-related strategy returns a
different field set (no version_title, website or social_links). -/
theorem query_strategies_agreement (db : QueryDB) (email : String) :
    (blog_list_raw db email).map (fun r => (rowField r "id", rowField r "title"))
        = (blog_list_orm db email).map (fun r => (rowField r "id", rowField r "title"))
    ∧ (blog_list_orm db email).map (fun r => (rowField r "id", rowField r "title"))
        = (blog_list_select_related db email).map
            (fun r => (rowField r "id", rowField r "title"))
    ∧ (blog_list_raw db email).map (fun r => r.filter (fun kv => kv.1 != "version_title"))
        = (blog_list_orm db email).map
            (fun r => r.filter (fun kv => kv.1 != "version_title"))
    ∧ (blog_list_orm db email).map (fun r => rowField r "version_title")
        = List.replicate (blog_list_orm db email).length (some JVal.null) := by
  refine ⟨?_, ?_, ?_, ?_⟩
  · rw [blog_list_raw, blog_list_orm, List.map_map, List.map_map]
    exact List.map_congr_left (fun x _ => rfl)
  · rw [blog_list_select_related, blog_list_orm, List.map_map, List.map_map]
    exact List.map_congr_left (fun x _ => rfl)
  · rw [blog_list_raw, blog_list_orm, List.map_map, List.map_map]
    exact List.map_congr_left (fun x _ => rfl)
  · rw [blog_list_orm, List.map_map, List.length_map]
    exact List.map_const' _ _

end DjangoBlog
